import Mathlib

/-!
# Verification of the sattrack Arduino gateway sketch

Shallow embedding of `src/field/arduino/sketch_piV3_apr18b.ino`, the MQTT-to-serial
gateway that powers a Raspberry Pi through an inverted-logic relay on pin 12 and
forwards commands over Serial1.

State is the sketch's globals (`piPowered`, `piReady`, `pendingCommand`,
`hasPendingCommand`, the level of pin 12, and the text line buffer). Side effects
are accumulated in an output trace: MQTT status publications (`publishStatus`),
bytes written to the Pi over Serial1, debug prints on the USB serial, pin writes,
and blocking delays. `publishStatus` is modelled in the connected case, where it
emits the message on the status topic. The ArduinoJson deserializer is an external
library and is passed in as a parameter of type `String → Option JsonDoc`.
-/

set_option autoImplicit false

namespace SatTrack

/-- Observable side effects of the sketch: an MQTT status publication, a write of a
string to the Pi over Serial1, a debug print on the USB serial, a `digitalWrite`
to pin 12 (`true` = HIGH), or a blocking `delay` in milliseconds. -/
inductive Out where
  | status (s : String)
  | piWrite (s : String)
  | debug (s : String)
  | pinWrite (high : Bool)
  | delayMs (n : Nat)
deriving Repr, DecidableEq

def isStatus : Out → Bool
  | .status _ => true
  | _ => false

def isPiWrite : Out → Bool
  | .piWrite _ => true
  | _ => false

def isPinWrite : Out → Bool
  | .pinWrite _ => true
  | _ => false

def isDelay : Out → Bool
  | .delayMs _ => true
  | _ => false

/-- The sketch's global mutable state (besides the line buffer): the two flags
`piPowered` and `piReady`, the single pending-command slot, and the level of the
relay pin 12 (`pin12High = true` means power removed, the inverted-logic relay). -/
structure DevState where
  piPowered : Bool
  piReady : Bool
  pendingCommand : String
  hasPendingCommand : Bool
  pin12High : Bool
deriving Repr, DecidableEq

/-- Result of `deserializeJson` plus the three field extractions the sketch does:
`doc[command]` (a string), `doc[code]` and `doc[duration_estimate]` (integers,
0 when absent, as ArduinoJson yields). -/
structure JsonDoc where
  command : String
  code : Int
  duration : Int
deriving Repr, DecidableEq

/-- Whether `pat` occurs at the start of the character list `l`. -/
def listHasInit : List Char → List Char → Bool
  | [], _ => true
  | _ :: _, [] => false
  | p :: ps, c :: cs => p == c && listHasInit ps cs

/-- Whether `pat` occurs as a contiguous run somewhere in `l`. -/
def listHasSub (pat : List Char) : List Char → Bool
  | [] => pat.isEmpty
  | c :: cs => listHasInit pat (c :: cs) || listHasSub pat cs

/-- Arduino `String.indexOf(pat) >= 0`: `pat` occurs as a substring of `s`. -/
def containsSubstring (s pat : String) : Bool :=
  listHasSub pat.toList s.toList

/-- Arduino `String.startsWith`. -/
def startsWithStr (s pat : String) : Bool :=
  listHasInit pat.toList s.toList

/-- C `isspace`, the character class Arduino `String.trim` removes. -/
def isSpaceChar (c : Char) : Bool :=
  c == ' ' || c == '\t' || c == '\n' || c == '\x0b' || c == '\x0c' || c == '\r'

/-- Arduino `String.trim`: drop `isspace` characters from both ends. -/
def ardTrim (s : String) : String :=
  String.mk (((s.toList.dropWhile isSpaceChar).reverse.dropWhile isSpaceChar).reverse)

/-- Accumulate decimal digits, as `atol` does after the sign. -/
def atolDigits : List Char → Nat → Nat
  | [], acc => acc
  | c :: cs, acc =>
    if c.isDigit then atolDigits cs (acc * 10 + (c.toNat - 48)) else acc

/-- Arduino `String.toInt` (which calls `atol`): skip leading whitespace, read an
optional sign and then leading decimal digits; yield 0 when no digits follow. -/
def ardToInt (s : String) : Int :=
  match s.toList.dropWhile isSpaceChar with
  | '-' :: rest => - (atolDigits rest 0 : Int)
  | '+' :: rest => (atolDigits rest 0 : Int)
  | cs => (atolDigits cs 0 : Int)

/-- The sketch's `publishStatus`, in the connected case: publish on the status
topic and echo to the debug serial. -/
def publishStatus (message : String) : List Out :=
  [Out.status message, Out.debug ("Published: " ++ message)]

/-- The sketch's `sendToPi`: refuse the write when the Pi is not ready, publishing
a failure status and, when the Pi is at least powered, queuing the command into
the pending slot; otherwise append a newline and write to Serial1. -/
def sendToPi (command : String) (s : DevState) : DevState × List Out :=
  if s.piReady = false then
    let outs := Out.debug "Cannot send command, Pi not ready" ::
      publishStatus "Command failed, Pi not ready"
    if s.piPowered then
      ({ s with pendingCommand := command, hasPendingCommand := true },
        outs ++ publishStatus ("Command queued: " ++ command))
    else
      (s, outs)
  else
    let commandNl := command ++ "\n"
    (s, [Out.debug "Sending command to Pi: ", Out.debug commandNl, Out.piWrite commandNl]
      ++ publishStatus ("Command sent to Pi: " ++ commandNl))

/-- The sketch's `turnonpi`: when unpowered, drive pin 12 LOW, set `piPowered`,
clear `piReady`; when already powered, only report that. -/
def turnonpi (s : DevState) : DevState × List Out :=
  if s.piPowered = false then
    ({ s with pin12High := false, piPowered := true, piReady := false },
      [Out.debug "Turning on Pi", Out.pinWrite false] ++ publishStatus "Pi Booting")
  else
    (s, Out.debug "Pi is already powered on" :: publishStatus "Pi is already powered on")

/-- The sketch's `reply101`: publish the fixed acknowledgment 301. -/
def reply101 (s : DevState) : DevState × List Out :=
  (s, publishStatus "301" ++ [Out.debug "Status reported: 301"])

/-- The sketch's `statuspi`: forward the status request 103 to the Pi. -/
def statuspi (s : DevState) : DevState × List Out :=
  let r := sendToPi "103" s
  (r.1, Out.debug "Requesting Pi status" :: r.2)

/-- The sketch's `shutdownpi`: send 104 to the Pi, clear `piReady`, report, wait
25 seconds, drive pin 12 HIGH and clear `piPowered`. -/
def shutdownpi (s : DevState) : DevState × List Out :=
  let r := sendToPi "104" s
  let s1 := { r.1 with piReady := false }
  let s2 := { s1 with pin12High := true, piPowered := false }
  (s2,
    Out.debug "Sending shutdown command to Pi" :: r.2
      ++ publishStatus "Pi shutting down, communication disabled"
      ++ [Out.delayMs 25000, Out.pinWrite true]
      ++ publishStatus "Pi power off")

/-- The sketch's `processTextMessage`: trim the framed line and classify it. A
line containing Pi-ready text sets both flags and dispatches a pending command;
`104_ACK` clears `piReady`; `SHUTDOWN_INITIATED` clears `piReady`, waits 95
seconds, drives pin 12 HIGH and clears `piPowered`; the remaining classes only
report. -/
def processTextMessage (message : String) (s : DevState) : DevState × List Out :=
  let messageStr := ardTrim message
  let dbg := [Out.debug "Text message from Pi: ", Out.debug messageStr]
  if containsSubstring messageStr "Pi ready" || containsSubstring messageStr "READY" then
    let s1 := { s with piReady := true, piPowered := true }
    let outs := dbg ++ Out.debug "Pi is now ready for communication!" ::
      publishStatus "Pi is ready for communication"
    if s1.hasPendingCommand then
      let r := sendToPi s1.pendingCommand s1
      ({ r.1 with hasPendingCommand := false, pendingCommand := "" },
        outs ++ Out.debug "Sending pending command to Pi" :: r.2)
    else
      (s1, outs)
  else if startsWithStr messageStr "103_ACK" then
    (s, dbg ++ Out.debug "Received status acknowledgment from Pi" ::
      publishStatus ("Pi status received: " ++ messageStr))
  else if startsWithStr messageStr "104_ACK" then
    ({ s with piReady := false },
      dbg ++ Out.debug "Received shutdown acknowledgment from Pi" ::
        publishStatus ("Pi shutdown acknowledged: " ++ messageStr))
  else if startsWithStr messageStr "105_NOAA15" || startsWithStr messageStr "106_NOAA18"
      || startsWithStr messageStr "107_NOAA19" || startsWithStr messageStr "108_ISS" then
    (s, dbg ++ Out.debug ("Received satellite recording ACK: " ++ messageStr) ::
      publishStatus ("Recording started: " ++ messageStr))
  else if startsWithStr messageStr "UPLOAD_SUCCESS" then
    (s, dbg ++ Out.debug ("File upload success: " ++ messageStr) ::
      publishStatus ("File uploaded to Google Drive: " ++ messageStr))
  else if startsWithStr messageStr "SHUTDOWN_INITIATED" then
    ({ s with piReady := false, pin12High := true, piPowered := false },
      dbg ++ Out.debug ("Pi shutdown initiated: " ++ messageStr) ::
        publishStatus ("Pi shutting down: " ++ messageStr)
        ++ [Out.delayMs 95000, Out.pinWrite true])
  else if startsWithStr messageStr "UNKNOWN_CODE" then
    (s, dbg ++ Out.debug ("Pi reported unknown command: " ++ messageStr) ::
      publishStatus ("Command not recognized by Pi: " ++ messageStr))
  else
    (s, dbg ++ Out.debug ("Unrecognized message from Pi: " ++ messageStr) ::
      publishStatus ("Pi message: " ++ messageStr))

/-- The sketch's `processJsonMessage`, with the ArduinoJson deserializer passed in
as `parse`. Rejects parse failures and non-positive codes; publishes the command
summary; special-cases 101 and 102 (the 102 case contains the literal guard
`command == power_on && code != 102` from the source); otherwise sends the
code-colon-duration string when ready, or queues it and powers on when not. -/
def processJsonMessage (parse : String → Option JsonDoc) (jsonString : String)
    (s : DevState) : DevState × List Out :=
  match parse jsonString with
  | none =>
    (s, Out.debug "JSON parsing failed: " :: publishStatus "Error: JSON parsing failed")
  | some doc =>
    if doc.code ≤ 0 then
      (s, Out.debug "Invalid code in JSON message" ::
        publishStatus "Error: Invalid code in JSON message")
    else
      let piCommand := toString doc.code ++ ":" ++ toString doc.duration
      let outs0 :=
        [Out.debug "JSON Command: ", Out.debug doc.command,
         Out.debug "Code: ", Out.debug (toString doc.code),
         Out.debug "Duration: ", Out.debug (toString doc.duration),
         Out.debug "Command with duration: ", Out.debug piCommand]
        ++ publishStatus ("Command " ++ toString doc.code ++ " with duration: "
            ++ toString doc.duration ++ " seconds")
      if doc.code = 101 then
        let r := reply101 s
        (r.1, outs0 ++ r.2)
      else if doc.code = 102 then
        let r := turnonpi s
        if doc.command = "power_on" ∧ doc.code ≠ 102 then
          ({ r.1 with pendingCommand := piCommand, hasPendingCommand := true },
            outs0 ++ r.2 ++ publishStatus ("Pi booting, command " ++ piCommand ++ " queued"))
        else
          (r.1, outs0 ++ r.2)
      else if s.piReady then
        let r := sendToPi piCommand s
        (r.1, outs0 ++ r.2)
      else
        let s1 := { s with pendingCommand := piCommand, hasPendingCommand := true }
        if s1.piPowered = false then
          let r := turnonpi s1
          (r.1, outs0 ++ r.2 ++ publishStatus ("Pi booting, command " ++ piCommand ++ " queued"))
        else
          (s1, outs0 ++ publishStatus ("Pi not ready, command " ++ piCommand ++ " queued"))

/-- The ready half of the legacy dispatch in `onMqttMessage`: when the Pi is
ready, 103 requests status, 104 shuts down, and any other positive code is
forwarded verbatim to the Pi. -/
def legacyReadyDispatch (incoming : String) (code : Int) (s2 : DevState) :
    DevState × List Out :=
  if code = 103 then statuspi s2
  else if code = 104 then shutdownpi s2
  else if 0 < code then sendToPi incoming s2
  else (s2, [])

/-- The not-ready half of the legacy dispatch in `onMqttMessage`: a positive code
other than 101 and 102 overwrites the pending slot; if the Pi is unpowered it is
also turned on. -/
def legacyQueue (incoming : String) (code : Int) (s2 : DevState) : DevState × List Out :=
  if 0 < code ∧ code ≠ 101 ∧ code ≠ 102 then
    let s3 := { s2 with pendingCommand := incoming, hasPendingCommand := true }
    if s3.piPowered = false then
      let r4 := turnonpi s3
      (r4.1, r4.2 ++ publishStatus ("Pi booting, command " ++ incoming ++ " queued"))
    else
      (s3, publishStatus ("Pi not ready, command " ++ incoming ++ " queued"))
  else (s2, [])

/-- The legacy (non-JSON) half of the sketch's `onMqttMessage`: parse the payload
with `toInt`; 101 and 102 act in any state; then the ready or not-ready half
runs on the state those may have updated. -/
def legacyDispatch (incoming : String) (s : DevState) : DevState × List Out :=
  let code := ardToInt incoming
  let r1 := if code = 101 then reply101 s else (s, [])
  let r2 := if code = 102 then turnonpi r1.1 else (r1.1, [])
  let s2 := r2.1
  let r3 :=
    if s2.piReady then legacyReadyDispatch incoming code s2
    else legacyQueue incoming code s2
  (r3.1, r1.2 ++ r2.2 ++ r3.2)

/-- The sketch's `onMqttMessage`: print the topic and payload to the debug serial,
then route the payload to the JSON handler when it contains both braces, else to
the legacy numeric dispatch. The topic is read only for the debug print. -/
def onMqttMessage (parse : String → Option JsonDoc) (messageTopic incoming : String)
    (s : DevState) : DevState × List Out :=
  let dbg := Out.debug ("MQTT received on topic " ++ messageTopic ++ ": " ++ incoming)
  let r :=
    if containsSubstring incoming "\x7b" && containsSubstring incoming "\x7d" then
      processJsonMessage parse incoming s
    else
      legacyDispatch incoming s
  (r.1, dbg :: r.2)

/-- Full state: the device-side globals plus the Serial1 line buffer
(`textBuffer` and `textBufferIndex`, modelled as the list of buffered chars). -/
structure FullState where
  dev : DevState
  buf : List Char
deriving Repr, DecidableEq

/-- One iteration of the sketch's `checkPiMessages` loop on one received byte:
printable ASCII and the two terminators are buffered while the index stays below
127 (capacity 128 with a reserved NUL); a buffered terminator hands the line to
`processTextMessage` and resets the buffer; a full buffer is discarded with a
debug diagnostic; other bytes are dropped. -/
def feedByte (c : Char) (s : FullState) : FullState × List Out :=
  if (32 ≤ c.toNat && c.toNat ≤ 126) || c == '\n' || c == '\r' then
    if s.buf.length < 127 then
      let buf1 := s.buf ++ [c]
      if c == '\n' || c == '\r' then
        let r := processTextMessage (String.mk buf1) s.dev
        (⟨r.1, []⟩, r.2)
      else
        (⟨s.dev, buf1⟩, [])
    else
      (⟨s.dev, []⟩, [Out.debug "Text buffer overflow, resetting"])
  else
    (s, [])

/-- An observable input event: an MQTT message delivered on a topic, or one byte
arriving from the Pi on Serial1. -/
inductive InEv where
  | mqtt (topic : String) (payload : String)
  | piByte (c : Char)
deriving Repr

/-- Dispatch one input event through the corresponding sketch handler. -/
def stepEv (parse : String → Option JsonDoc) (s : FullState) : InEv → FullState × List Out
  | .mqtt t p =>
    let r := onMqttMessage parse t p s.dev
    (⟨r.1, s.buf⟩, r.2)
  | .piByte c => feedByte c s

/-- State after `setup`: flags cleared, pending slot empty, pin 12 driven HIGH
(power off), line buffer empty. -/
def initState : FullState :=
  ⟨⟨false, false, "", false, true⟩, []⟩

/-- Run a sequence of input events from a state, accumulating the output trace. -/
def run (parse : String → Option JsonDoc) (s : FullState) :
    List InEv → FullState × List Out
  | [] => (s, [])
  | e :: es =>
    let r := stepEv parse s e
    let rest := run parse r.1 es
    (rest.1, r.2 ++ rest.2)

/-- A trivial stand-in deserializer for runs that never take the JSON path. -/
def parseNone : String → Option JsonDoc := fun _ => none

/-- The device-state invariant claimed by the spec: the Pi is reported ready only
while it is powered. -/
def ReadyImpliesPowered (d : DevState) : Prop :=
  d.piReady = true → d.piPowered = true

/-- `processJsonMessage` with the queuing branch guarded by
`command == power_on && code != 102` deleted from the `code == 102` case;
identical to `processJsonMessage` everywhere else. Comparing the two settles
whether that branch is reachable. -/
def processJsonMessageNoDeadBranch (parse : String → Option JsonDoc) (jsonString : String)
    (s : DevState) : DevState × List Out :=
  match parse jsonString with
  | none =>
    (s, Out.debug "JSON parsing failed: " :: publishStatus "Error: JSON parsing failed")
  | some doc =>
    if doc.code ≤ 0 then
      (s, Out.debug "Invalid code in JSON message" ::
        publishStatus "Error: Invalid code in JSON message")
    else
      let piCommand := toString doc.code ++ ":" ++ toString doc.duration
      let outs0 :=
        [Out.debug "JSON Command: ", Out.debug doc.command,
         Out.debug "Code: ", Out.debug (toString doc.code),
         Out.debug "Duration: ", Out.debug (toString doc.duration),
         Out.debug "Command with duration: ", Out.debug piCommand]
        ++ publishStatus ("Command " ++ toString doc.code ++ " with duration: "
            ++ toString doc.duration ++ " seconds")
      if doc.code = 101 then
        let r := reply101 s
        (r.1, outs0 ++ r.2)
      else if doc.code = 102 then
        let r := turnonpi s
        (r.1, outs0 ++ r.2)
      else if s.piReady then
        let r := sendToPi piCommand s
        (r.1, outs0 ++ r.2)
      else
        let s1 := { s with pendingCommand := piCommand, hasPendingCommand := true }
        if s1.piPowered = false then
          let r := turnonpi s1
          (r.1, outs0 ++ r.2 ++ publishStatus ("Pi booting, command " ++ piCommand ++ " queued"))
        else
          (s1, outs0 ++ publishStatus ("Pi not ready, command " ++ piCommand ++ " queued"))

end SatTrack

namespace SatTrack

theorem sendToPi_powered (c : String) (d : DevState) :
    (sendToPi c d).1.piPowered = d.piPowered := by
  unfold sendToPi
  split
  · split <;> rfl
  · rfl

theorem sendToPi_ready (c : String) (d : DevState) :
    (sendToPi c d).1.piReady = d.piReady := by
  unfold sendToPi
  split
  · split <;> rfl
  · rfl

theorem sendToPi_pin (c : String) (d : DevState) :
    (sendToPi c d).1.pin12High = d.pin12High := by
  unfold sendToPi
  split
  · split <;> rfl
  · rfl

theorem sendToPi_inv (c : String) (d : DevState) (h : ReadyImpliesPowered d) :
    ReadyImpliesPowered (sendToPi c d).1 := by
  intro hr
  rw [sendToPi_powered]
  exact h (by rw [← sendToPi_ready c d]; exact hr)

theorem turnonpi_inv (d : DevState) (h : ReadyImpliesPowered d) :
    ReadyImpliesPowered (turnonpi d).1 := by
  unfold turnonpi ReadyImpliesPowered at *
  split <;> simp_all

theorem shutdownpi_ready (d : DevState) : (shutdownpi d).1.piReady = false := rfl

theorem shutdownpi_inv (d : DevState) : ReadyImpliesPowered (shutdownpi d).1 := by
  intro hr
  rw [shutdownpi_ready] at hr
  cases hr

theorem statuspi_inv (d : DevState) (h : ReadyImpliesPowered d) :
    ReadyImpliesPowered (statuspi d).1 :=
  sendToPi_inv "103" d h

theorem processTextMessage_inv (m : String) (d : DevState) (h : ReadyImpliesPowered d) :
    ReadyImpliesPowered (processTextMessage m d).1 := by
  unfold processTextMessage ReadyImpliesPowered at *
  dsimp only
  repeat' split
  all_goals simp_all [sendToPi_powered]

theorem queueSlot_inv (d : DevState) (c : String) (h : ReadyImpliesPowered d) :
    ReadyImpliesPowered { d with pendingCommand := c, hasPendingCommand := true } := h

theorem legacyReadyDispatch_inv (m : String) (code : Int) (s2 : DevState)
    (h : ReadyImpliesPowered s2) : ReadyImpliesPowered (legacyReadyDispatch m code s2).1 := by
  unfold legacyReadyDispatch
  split
  · exact statuspi_inv _ h
  · split
    · exact shutdownpi_inv _
    · split
      · exact sendToPi_inv _ _ h
      · exact h

theorem legacyQueue_inv (m : String) (code : Int) (s2 : DevState)
    (h : ReadyImpliesPowered s2) : ReadyImpliesPowered (legacyQueue m code s2).1 := by
  unfold legacyQueue
  dsimp only
  split
  · split
    · exact turnonpi_inv _ (queueSlot_inv _ _ h)
    · exact queueSlot_inv _ _ h
  · exact h

theorem legacyPair_inv (m : String) (code : Int) (s2 : DevState)
    (h : ReadyImpliesPowered s2) :
    ReadyImpliesPowered
      (if s2.piReady = true then legacyReadyDispatch m code s2 else legacyQueue m code s2).1 := by
  split
  · exact legacyReadyDispatch_inv m code s2 h
  · exact legacyQueue_inv m code s2 h

theorem legacyDispatch_inv (m : String) (d : DevState) (h : ReadyImpliesPowered d) :
    ReadyImpliesPowered (legacyDispatch m d).1 := by
  unfold legacyDispatch
  dsimp only
  have h1 : ReadyImpliesPowered (if ardToInt m = 101 then reply101 d else (d, [])).1 := by
    split
    · exact h
    · exact h
  have h2 : ReadyImpliesPowered
      (if ardToInt m = 102 then turnonpi (if ardToInt m = 101 then reply101 d else (d, [])).1
       else ((if ardToInt m = 101 then reply101 d else (d, [])).1, [])).1 := by
    split
    · exact turnonpi_inv _ h1
    · exact h1
  exact legacyPair_inv m (ardToInt m) _ h2

theorem processJsonMessage_inv (parse : String → Option JsonDoc) (m : String)
    (d : DevState) (h : ReadyImpliesPowered d) :
    ReadyImpliesPowered (processJsonMessage parse m d).1 := by
  unfold processJsonMessage reply101 turnonpi sendToPi ReadyImpliesPowered at *
  dsimp only
  repeat' split
  all_goals simp_all

theorem onMqttMessage_inv (parse : String → Option JsonDoc) (t m : String)
    (d : DevState) (h : ReadyImpliesPowered d) :
    ReadyImpliesPowered (onMqttMessage parse t m d).1 := by
  unfold onMqttMessage
  split
  · exact processJsonMessage_inv parse m d h
  · exact legacyDispatch_inv m d h

theorem feedByte_inv (c : Char) (s : FullState) (h : ReadyImpliesPowered s.dev) :
    ReadyImpliesPowered (feedByte c s).1.dev := by
  unfold feedByte
  split
  · split
    · split
      · exact processTextMessage_inv _ _ h
      · exact h
    · exact h
  · exact h

theorem stepEv_inv (parse : String → Option JsonDoc) (s : FullState) (e : InEv)
    (h : ReadyImpliesPowered s.dev) : ReadyImpliesPowered (stepEv parse s e).1.dev := by
  cases e with
  | mqtt t p => exact onMqttMessage_inv parse t p s.dev h
  | piByte c => exact feedByte_inv c s h

theorem run_inv (parse : String → Option JsonDoc) (evs : List InEv) (s : FullState)
    (h : ReadyImpliesPowered s.dev) : ReadyImpliesPowered (run parse s evs).1.dev := by
  induction evs generalizing s with
  | nil => exact h
  | cons e es ih => exact ih _ (stepEv_inv parse s e h)

/-- C1: after setup and after processing any sequence of bus messages and
device-link bytes, the device-state invariant holds: `piReady = true` implies
`piPowered = true`. -/
theorem c1_ready_implies_powered (parse : String → Option JsonDoc) (evs : List InEv)
    (h : (run parse initState evs).1.dev.piReady = true) :
    (run parse initState evs).1.dev.piPowered = true :=
  run_inv parse evs initState (fun hr => Bool.noConfusion hr) h

/-- Witness for C1: feeding the bytes of a READY line from the initial state
makes `piReady` true, and the theorem yields `piPowered` true there. -/
theorem c1_ready_implies_powered_witness :
    (run parseNone initState [InEv.piByte 'R', InEv.piByte 'E', InEv.piByte 'A',
      InEv.piByte 'D', InEv.piByte 'Y', InEv.piByte '\n']).1.dev.piReady = true ∧
    (run parseNone initState [InEv.piByte 'R', InEv.piByte 'E', InEv.piByte 'A',
      InEv.piByte 'D', InEv.piByte 'Y', InEv.piByte '\n']).1.dev.piPowered = true :=
  ⟨by decide, c1_ready_implies_powered parseNone _ (by decide)⟩

end SatTrack

namespace SatTrack

/-- C8: the queuing branch inside the `code == 102` case of the structured-message
handler, guarded by `command == power_on && code != 102`, is unreachable: the
handler computes exactly what it computes with that branch deleted, on every
deserializer, message and state. -/
theorem c8_dead_branch_unreachable (parse : String → Option JsonDoc) (m : String)
    (s : DevState) :
    processJsonMessage parse m s = processJsonMessageNoDeadBranch parse m s := by
  unfold processJsonMessage processJsonMessageNoDeadBranch
  dsimp only
  repeat' split
  all_goals simp_all

/-- C9: inbound bus-message processing does not depend on the arrival topic: from
the same state and payload, two runs on different topics produce the same
resulting state, the same status publications, and the same device-link writes
(the topic appears only in a debug-serial print). -/
theorem c9_topic_independent (parse : String → Option JsonDoc) (t1 t2 payload : String)
    (d : DevState) :
    (onMqttMessage parse t1 payload d).1 = (onMqttMessage parse t2 payload d).1 ∧
    (onMqttMessage parse t1 payload d).2.filter isStatus =
      (onMqttMessage parse t2 payload d).2.filter isStatus ∧
    (onMqttMessage parse t1 payload d).2.filter isPiWrite =
      (onMqttMessage parse t2 payload d).2.filter isPiWrite := by
  unfold onMqttMessage
  dsimp only
  refine ⟨rfl, ?_, ?_⟩ <;> simp [isStatus, isPiWrite]

/-- C7 counterexample: a newline byte fed to the empty-buffer initial state does
trigger message processing and does publish a status, contrary to the claim that
nothing happens. -/
theorem c7_counterexample :
    Out.status "Pi message: " ∈ (feedByte '\n' initState).2 := by decide

/-- C7 amended: a terminator byte on an empty buffer is itself buffered and
immediately processed as a line; the line trims to the empty string and falls to
the unclassified branch, so the device state and buffer are unchanged and no
device-link write occurs, but the status report with empty text, namely
"Pi message: ", is published. -/
theorem c7_terminator_on_empty_buffer (d : DevState) :
    feedByte '\n' ⟨d, []⟩ =
      (⟨d, []⟩,
        [Out.debug "Text message from Pi: ", Out.debug "",
         Out.debug "Unrecognized message from Pi: ",
         Out.status "Pi message: ", Out.debug "Published: Pi message: "]) ∧
    feedByte '\r' ⟨d, []⟩ =
      (⟨d, []⟩,
        [Out.debug "Text message from Pi: ", Out.debug "",
         Out.debug "Unrecognized message from Pi: ",
         Out.status "Pi message: ", Out.debug "Published: Pi message: "]) :=
  ⟨rfl, rfl⟩

set_option maxRecDepth 20000

/-- C6 counterexample: feeding 200 printable bytes with no terminator from the
initial state produces no Status-Reporter publication at all — the overflow
diagnostic exists only as a debug-serial print, contrary to the claim that it is
reported via the Status Reporter. -/
theorem c6_counterexample :
    ((run parseNone initState (List.replicate 200 (InEv.piByte 'a'))).2.filter isStatus = [])
      ∧ (run parseNone initState (List.replicate 200 (InEv.piByte 'a'))).2 =
        [Out.debug "Text buffer overflow, resetting"] := by decide

theorem filter_replicate_of_neg (p : Out → Bool) (n : Nat) (o : Out)
    (hp : p o = false) : (List.replicate n o).filter p = [] := by
  induction n with
  | zero => rfl
  | succ k ih => rw [List.replicate_succ]; simp [List.filter_cons, hp, ih]

theorem framer_printable_run (bs : List Char) (d : DevState) (b : List Char)
    (hp : ∀ c ∈ bs, 32 ≤ c.toNat ∧ c.toNat ≤ 126) (hb : b.length ≤ 127) :
    (run parseNone ⟨d, b⟩ (bs.map InEv.piByte)).1.dev = d ∧
    (run parseNone ⟨d, b⟩ (bs.map InEv.piByte)).1.buf.length =
      (b.length + bs.length) % 128 ∧
    (run parseNone ⟨d, b⟩ (bs.map InEv.piByte)).2 =
      List.replicate ((b.length + bs.length) / 128)
        (Out.debug "Text buffer overflow, resetting") := by
  induction bs generalizing b with
  | nil =>
    refine ⟨rfl, ?_, ?_⟩
    · show b.length = (b.length + 0) % 128
      omega
    · show ([] : List Out) = List.replicate ((b.length + 0) / 128) _
      rw [show (b.length + 0) / 128 = 0 from by omega]
      rfl
  | cons c cs ih =>
    obtain ⟨hc1, hc2⟩ := hp c (List.mem_cons_self c cs)
    have hp2 : ∀ x ∈ cs, 32 ≤ x.toNat ∧ x.toNat ≤ 126 :=
      fun x hx => hp x (List.mem_cons_of_mem c hx)
    have hcond : ((32 ≤ c.toNat && c.toNat ≤ 126) || c == '\n' || c == '\r') = true := by
      simp [hc1, hc2]
    have hterm : (c == '\n' || c == '\r') = false := by
      simp only [Bool.or_eq_false_iff, beq_eq_false_iff_ne]
      constructor
      · rintro rfl
        exact absurd hc1 (by decide)
      · rintro rfl
        exact absurd hc1 (by decide)
    by_cases hlt : b.length < 127
    · have hstep : feedByte c ⟨d, b⟩ = (⟨d, b ++ [c]⟩, []) := by
        unfold feedByte
        simp [hcond, hterm, hlt]
      obtain ⟨ih1, ih2, ih3⟩ := ih (b ++ [c]) hp2 (by simp; omega)
      rw [List.map_cons]
      unfold run stepEv
      dsimp only
      rw [hstep]
      dsimp only
      refine ⟨ih1, ?_, ?_⟩
      · rw [ih2]
        simp only [List.length_append, List.length_cons, List.length_singleton, List.length_nil]
        omega
      · rw [List.nil_append, ih3]
        congr 1
        simp only [List.length_append, List.length_cons, List.length_singleton, List.length_nil]
        omega
    · have hstep : feedByte c ⟨d, b⟩ =
          (⟨d, []⟩, [Out.debug "Text buffer overflow, resetting"]) := by
        unfold feedByte
        simp [hcond, hterm, hlt]
      obtain ⟨ih1, ih2, ih3⟩ := ih [] hp2 (by simp)
      rw [List.map_cons]
      unfold run stepEv
      dsimp only
      rw [hstep]
      dsimp only
      refine ⟨ih1, ?_, ?_⟩
      · rw [ih2]
        simp only [List.length_nil, List.length_cons]
        omega
      · rw [ih3]
        rw [show (b.length + (c :: cs).length) / 128 = (([] : List Char).length + cs.length) / 128 + 1 from by
          simp only [List.length_cons, List.length_nil]; omega]
        rw [List.replicate_succ]
        rfl

/-- C6 amended: for every run of printable bytes long enough to exceed the
128-byte line-buffer capacity before any terminator, the framer discards the
buffer contents each time the 128th byte arrives and emits no line — the device
state is untouched, the buffer keeps only the bytes after the last reset, and
the outputs are exactly one debug-serial overflow diagnostic per reset: nothing
is published via the Status Reporter and nothing is written to the device. -/
theorem c6_overflow_drop_and_reset (bs : List Char)
    (hp : ∀ c ∈ bs, 32 ≤ c.toNat ∧ c.toNat ≤ 126) (hn : 128 ≤ bs.length) :
    (run parseNone initState (bs.map InEv.piByte)).1.dev = initState.dev ∧
    (run parseNone initState (bs.map InEv.piByte)).1.buf.length = bs.length % 128 ∧
    1 ≤ bs.length / 128 ∧
    (run parseNone initState (bs.map InEv.piByte)).2 =
      List.replicate (bs.length / 128) (Out.debug "Text buffer overflow, resetting") ∧
    (run parseNone initState (bs.map InEv.piByte)).2.filter isStatus = [] ∧
    (run parseNone initState (bs.map InEv.piByte)).2.filter isPiWrite = [] := by
  have e : initState = (⟨initState.dev, []⟩ : FullState) := rfl
  rw [e]
  obtain ⟨h1, h2, h3⟩ := framer_printable_run bs initState.dev [] hp (by simp)
  have hlen : ([] : List Char).length + bs.length = bs.length := by simp
  rw [hlen] at h2 h3
  refine ⟨h1, h2, by omega, h3, ?_, ?_⟩
  · rw [h3]
    exact filter_replicate_of_neg isStatus _ _ rfl
  · rw [h3]
    exact filter_replicate_of_neg isPiWrite _ _ rfl

/-- Witness for C6 at the spec scenario: 200 consecutive printable bytes. -/
theorem c6_overflow_drop_and_reset_witness :
    ((∀ c ∈ List.replicate 200 'a', 32 ≤ c.toNat ∧ c.toNat ≤ 126) ∧
      128 ≤ (List.replicate 200 'a').length) ∧
    ((run parseNone initState ((List.replicate 200 'a').map InEv.piByte)).1.dev =
        initState.dev ∧
     (run parseNone initState ((List.replicate 200 'a').map InEv.piByte)).1.buf.length =
       (List.replicate 200 'a').length % 128 ∧
     1 ≤ (List.replicate 200 'a').length / 128 ∧
     (run parseNone initState ((List.replicate 200 'a').map InEv.piByte)).2 =
       List.replicate ((List.replicate 200 'a').length / 128)
         (Out.debug "Text buffer overflow, resetting") ∧
     (run parseNone initState
        ((List.replicate 200 'a').map InEv.piByte)).2.filter isStatus = [] ∧
     (run parseNone initState
        ((List.replicate 200 'a').map InEv.piByte)).2.filter isPiWrite = []) :=
  ⟨⟨by decide, by decide⟩,
    c6_overflow_drop_and_reset (List.replicate 200 'a') (by decide) (by decide)⟩

end SatTrack

namespace SatTrack

/-- C10: a framed line containing the ready text, received while the machine is
OFF (unpowered, relay pin HIGH), jumps straight to READY — both flags set — with
no write to the power-control pin, leaving `piPowered = true` while pin 12 is
still HIGH (power physically off). -/
theorem c10_ready_line_skips_pin (d : DevState) (line : String)
    (hpow : d.piPowered = false) (hpin : d.pin12High = true)
    (hline : (containsSubstring (ardTrim line) "Pi ready"
      || containsSubstring (ardTrim line) "READY") = true) :
    (processTextMessage line d).1.piPowered = true ∧
    (processTextMessage line d).1.piReady = true ∧
    (processTextMessage line d).1.pin12High = true ∧
    (processTextMessage line d).2.filter isPinWrite = [] := by
  unfold processTextMessage
  dsimp only
  simp only [hline, if_true]
  split
  · simp [sendToPi, publishStatus, isPinWrite, hpin]
  · simp [publishStatus, isPinWrite, hpin]

/-- Witness for C10 at the OFF initial device state and the literal line. -/
theorem c10_ready_line_skips_pin_witness :
    ((⟨false, false, "", false, true⟩ : DevState).piPowered = false ∧
      (containsSubstring (ardTrim "Pi ready") "Pi ready"
        || containsSubstring (ardTrim "Pi ready") "READY") = true) ∧
    ((processTextMessage "Pi ready" ⟨false, false, "", false, true⟩).1.piPowered = true ∧
     (processTextMessage "Pi ready" ⟨false, false, "", false, true⟩).1.piReady = true ∧
     (processTextMessage "Pi ready" ⟨false, false, "", false, true⟩).1.pin12High = true ∧
     (processTextMessage "Pi ready" ⟨false, false, "", false, true⟩).2.filter isPinWrite = []) :=
  ⟨by decide, c10_ready_line_skips_pin ⟨false, false, "", false, true⟩ "Pi ready"
    rfl rfl (by decide)⟩

end SatTrack

namespace SatTrack

theorem legacy_queue_from_off (parse : String → Option JsonDoc) (t m : String) (d : DevState)
    (hB : containsSubstring m "\x7b" = false)
    (h0 : 0 < ardToInt m) (h1 : ardToInt m ≠ 101) (h2 : ardToInt m ≠ 102)
    (hready : d.piReady = false) (hpow : d.piPowered = false) :
    (onMqttMessage parse t m d).1 = ⟨true, false, m, true, false⟩ ∧
    (onMqttMessage parse t m d).2.filter isPiWrite = [] := by
  unfold onMqttMessage legacyDispatch legacyQueue turnonpi
  dsimp only
  simp [hB, h0, h1, h2, hready, hpow, publishStatus, isPiWrite]

theorem legacy_queue_while_powered (parse : String → Option JsonDoc) (t m : String)
    (d : DevState) (hB : containsSubstring m "\x7b" = false)
    (h0 : 0 < ardToInt m) (h1 : ardToInt m ≠ 101) (h2 : ardToInt m ≠ 102)
    (hready : d.piReady = false) (hpow : d.piPowered = true) :
    (onMqttMessage parse t m d).1 = { d with pendingCommand := m, hasPendingCommand := true } ∧
    (onMqttMessage parse t m d).2.filter isPiWrite = [] := by
  unfold onMqttMessage legacyDispatch legacyQueue turnonpi
  dsimp only
  simp [hB, h0, h1, h2, hready, hpow, publishStatus, isPiWrite]

theorem ready_line_dispatch_pending (d : DevState) (hpend : d.hasPendingCommand = true) :
    (processTextMessage "Pi ready" d).1 = ⟨true, true, "", false, d.pin12High⟩ ∧
    (processTextMessage "Pi ready" d).2.filter isPiWrite =
      [Out.piWrite (d.pendingCommand ++ "\n")] := by
  have hc : (containsSubstring (ardTrim "Pi ready") "Pi ready"
      || containsSubstring (ardTrim "Pi ready") "READY") = true := by decide
  unfold processTextMessage
  dsimp only
  simp [hc, hpend, sendToPi, publishStatus, isPiWrite]

/-- C3: queuing command `A` and then command `B` while the machine is not READY
(starting from OFF) leaves only `B` in the single pending slot; the next Ready
line dispatches exactly one command, `B`, to the device and clears the slot; no
device write happens before the Ready line. -/
theorem c3_last_write_wins (parse : String → Option JsonDoc) (t1 t2 a b : String)
    (haB : containsSubstring a "\x7b" = false) (hbB : containsSubstring b "\x7b" = false)
    (ha0 : 0 < ardToInt a) (ha1 : ardToInt a ≠ 101) (ha2 : ardToInt a ≠ 102)
    (hb0 : 0 < ardToInt b) (hb1 : ardToInt b ≠ 101) (hb2 : ardToInt b ≠ 102) :
    ((onMqttMessage parse t1 a initState.dev).2.filter isPiWrite = [] ∧
     (onMqttMessage parse t2 b
        (onMqttMessage parse t1 a initState.dev).1).2.filter isPiWrite = []) ∧
    (processTextMessage "Pi ready"
        (onMqttMessage parse t2 b (onMqttMessage parse t1 a initState.dev).1).1).2.filter
        isPiWrite = [Out.piWrite (b ++ "\n")] ∧
    (processTextMessage "Pi ready"
        (onMqttMessage parse t2 b
          (onMqttMessage parse t1 a initState.dev).1).1).1.hasPendingCommand = false ∧
    (processTextMessage "Pi ready"
        (onMqttMessage parse t2 b
          (onMqttMessage parse t1 a initState.dev).1).1).1.pendingCommand = "" := by
  obtain ⟨e1, w1⟩ := legacy_queue_from_off parse t1 a initState.dev haB ha0 ha1 ha2 rfl rfl
  rw [e1]
  obtain ⟨e2, w2⟩ :=
    legacy_queue_while_powered parse t2 b ⟨true, false, a, true, false⟩ hbB hb0 hb1 hb2 rfl rfl
  rw [e2]
  have h3 := ready_line_dispatch_pending ⟨true, false, b, true, false⟩ rfl
  exact ⟨⟨w1, w2⟩, h3.2, congrArg DevState.hasPendingCommand h3.1,
    congrArg DevState.pendingCommand h3.1⟩

/-- Witness for C3 with the concrete commands 103 and then 105 queued while OFF. -/
theorem c3_last_write_wins_witness :
    (containsSubstring "103" "\x7b" = false ∧ containsSubstring "105" "\x7b" = false ∧
      0 < ardToInt "103" ∧ ardToInt "103" ≠ 101 ∧ ardToInt "103" ≠ 102 ∧
      0 < ardToInt "105" ∧ ardToInt "105" ≠ 101 ∧ ardToInt "105" ≠ 102) ∧
    (((onMqttMessage parseNone "commands" "103" initState.dev).2.filter isPiWrite = [] ∧
      (onMqttMessage parseNone "status" "105"
        (onMqttMessage parseNone "commands" "103" initState.dev).1).2.filter isPiWrite = []) ∧
     (processTextMessage "Pi ready"
        (onMqttMessage parseNone "status" "105"
          (onMqttMessage parseNone "commands" "103" initState.dev).1).1).2.filter
        isPiWrite = [Out.piWrite ("105" ++ "\n")] ∧
     (processTextMessage "Pi ready"
        (onMqttMessage parseNone "status" "105"
          (onMqttMessage parseNone "commands" "103"
            initState.dev).1).1).1.hasPendingCommand = false ∧
     (processTextMessage "Pi ready"
        (onMqttMessage parseNone "status" "105"
          (onMqttMessage parseNone "commands" "103"
            initState.dev).1).1).1.pendingCommand = "") :=
  ⟨by decide, c3_last_write_wins parseNone "commands" "status" "103" "105"
    (by decide) (by decide) (by decide) (by decide) (by decide)
    (by decide) (by decide) (by decide)⟩

end SatTrack

namespace SatTrack

/-- C4 counterexample: a device-link write attempted while BOOTING (powered, not
ready) is re-queued by `sendToPi` itself — the pending slot is filled with no
action by any caller, and the next Ready line then dispatches the write
automatically — contradicting the claim that the write is never retried
automatically and that the caller must re-queue the command itself. -/
theorem c4_counterexample :
    (sendToPi "105" ⟨true, false, "", false, false⟩).1.hasPendingCommand = true ∧
    (sendToPi "105" ⟨true, false, "", false, false⟩).1.pendingCommand = "105" ∧
    Out.status "Command queued: 105" ∈ (sendToPi "105" ⟨true, false, "", false, false⟩).2 ∧
    Out.piWrite "105\n" ∈
      (processTextMessage "Pi ready" (sendToPi "105" ⟨true, false, "", false, false⟩).1).2 := by
  decide

/-- C4 amended: a device-link write attempted while not READY fails (no bytes go
to the device) and the failure is reported via the Status Reporter; there is no
immediate retry, but when the device is powered `sendToPi` itself re-queues the
command into the pending slot (reporting that too) for automatic dispatch at the
next Ready event, and only when the device is unpowered is the command dropped
after the report. -/
theorem c4_notready_write (c : String) (d : DevState) (hready : d.piReady = false) :
    ((sendToPi c d).2.filter isPiWrite = [] ∧
     Out.status "Command failed, Pi not ready" ∈ (sendToPi c d).2) ∧
    (d.piPowered = true →
      (sendToPi c d).1.pendingCommand = c ∧
      (sendToPi c d).1.hasPendingCommand = true ∧
      Out.status ("Command queued: " ++ c) ∈ (sendToPi c d).2) ∧
    (d.piPowered = false → (sendToPi c d).1 = d) := by
  unfold sendToPi
  dsimp only
  cases hp : d.piPowered <;> simp [hready, hp, publishStatus, isPiWrite]

/-- Witness for C4 at the BOOTING state and the command 105. -/
theorem c4_notready_write_witness :
    ((⟨true, false, "", false, false⟩ : DevState).piReady = false) ∧
    (((sendToPi "105" ⟨true, false, "", false, false⟩).2.filter isPiWrite = [] ∧
      Out.status "Command failed, Pi not ready" ∈
        (sendToPi "105" ⟨true, false, "", false, false⟩).2) ∧
     ((⟨true, false, "", false, false⟩ : DevState).piPowered = true →
       (sendToPi "105" ⟨true, false, "", false, false⟩).1.pendingCommand = "105" ∧
       (sendToPi "105" ⟨true, false, "", false, false⟩).1.hasPendingCommand = true ∧
       Out.status ("Command queued: " ++ "105") ∈
         (sendToPi "105" ⟨true, false, "", false, false⟩).2) ∧
     ((⟨true, false, "", false, false⟩ : DevState).piPowered = false →
       (sendToPi "105" ⟨true, false, "", false, false⟩).1 =
         ⟨true, false, "", false, false⟩)) :=
  ⟨rfl, c4_notready_write "105" ⟨true, false, "", false, false⟩ rfl⟩

end SatTrack

namespace SatTrack

/-- C5 counterexample: a legacy "102" received while READY publishes the
already-powered status but then also forwards "102" over the device link,
contradicting the claim that no device-link write occurs. -/
theorem c5_counterexample :
    Out.status "Pi is already powered on" ∈
      (onMqttMessage parseNone "commands" "102" ⟨true, true, "", false, false⟩).2 ∧
    Out.piWrite "102\n" ∈
      (onMqttMessage parseNone "commands" "102" ⟨true, true, "", false, false⟩).2 := by
  decide

/-- C5 amended: a code-102 command received while the device is already powered
emits the already-powered status and leaves the state, the pin and the pending
slot unchanged; a structured 102 message and a legacy "102" in BOOTING also
perform no device-link write, but a legacy "102" received while READY is
additionally forwarded over the device link as "102" plus newline. -/
theorem c5_already_powered (parse : String → Option JsonDoc) (t msg cmd : String)
    (dur : Int) (d : DevState) (hpow : d.piPowered = true)
    (hB1 : containsSubstring msg "\x7b" = true) (hB2 : containsSubstring msg "\x7d" = true)
    (hp : parse msg = some ⟨cmd, 102, dur⟩) :
    ((onMqttMessage parse t msg d).1 = d ∧
     Out.status "Pi is already powered on" ∈ (onMqttMessage parse t msg d).2 ∧
     (onMqttMessage parse t msg d).2.filter isPiWrite = [] ∧
     (onMqttMessage parse t msg d).2.filter isPinWrite = []) ∧
    (d.piReady = false →
      (onMqttMessage parse t "102" d).1 = d ∧
      Out.status "Pi is already powered on" ∈ (onMqttMessage parse t "102" d).2 ∧
      (onMqttMessage parse t "102" d).2.filter isPiWrite = [] ∧
      (onMqttMessage parse t "102" d).2.filter isPinWrite = []) ∧
    (d.piReady = true →
      (onMqttMessage parse t "102" d).1 = d ∧
      Out.status "Pi is already powered on" ∈ (onMqttMessage parse t "102" d).2 ∧
      (onMqttMessage parse t "102" d).2.filter isPiWrite = [Out.piWrite "102\n"] ∧
      (onMqttMessage parse t "102" d).2.filter isPinWrite = []) := by
  have hL : containsSubstring "102" "\x7b" = false := by decide
  have hn : ardToInt "102" = 102 := by decide
  refine ⟨?_, ?_, ?_⟩
  · unfold onMqttMessage processJsonMessage turnonpi
    dsimp only
    simp [hB1, hB2, hp, hpow, publishStatus, isPiWrite, isPinWrite]
  · intro hready
    unfold onMqttMessage legacyDispatch legacyQueue legacyReadyDispatch turnonpi
    dsimp only
    simp [hL, hn, hready, hpow, publishStatus, isPiWrite, isPinWrite]
  · intro hready
    unfold onMqttMessage legacyDispatch legacyQueue legacyReadyDispatch turnonpi sendToPi
    dsimp only
    simp [hL, hn, hready, hpow, publishStatus, isPiWrite, isPinWrite]

/-- Witness for C5 at the READY state with a structured power-on message. -/
theorem c5_already_powered_witness :
    ((⟨true, true, "", false, false⟩ : DevState).piPowered = true ∧
      containsSubstring "\x7b\x7d" "\x7b" = true ∧
      containsSubstring "\x7b\x7d" "\x7d" = true ∧
      (fun (_ : String) => some (⟨"power_on", 102, 0⟩ : JsonDoc)) "\x7b\x7d" =
        some ⟨"power_on", 102, 0⟩) ∧
    (((onMqttMessage (fun _ => some ⟨"power_on", 102, 0⟩) "commands" "\x7b\x7d"
        ⟨true, true, "", false, false⟩).1 = ⟨true, true, "", false, false⟩ ∧
      Out.status "Pi is already powered on" ∈
        (onMqttMessage (fun _ => some ⟨"power_on", 102, 0⟩) "commands" "\x7b\x7d"
          ⟨true, true, "", false, false⟩).2 ∧
      (onMqttMessage (fun _ => some ⟨"power_on", 102, 0⟩) "commands" "\x7b\x7d"
        ⟨true, true, "", false, false⟩).2.filter isPiWrite = [] ∧
      (onMqttMessage (fun _ => some ⟨"power_on", 102, 0⟩) "commands" "\x7b\x7d"
        ⟨true, true, "", false, false⟩).2.filter isPinWrite = []) ∧
     ((⟨true, true, "", false, false⟩ : DevState).piReady = false →
       (onMqttMessage (fun _ => some ⟨"power_on", 102, 0⟩) "commands" "102"
         ⟨true, true, "", false, false⟩).1 = ⟨true, true, "", false, false⟩ ∧
       Out.status "Pi is already powered on" ∈
         (onMqttMessage (fun _ => some ⟨"power_on", 102, 0⟩) "commands" "102"
           ⟨true, true, "", false, false⟩).2 ∧
       (onMqttMessage (fun _ => some ⟨"power_on", 102, 0⟩) "commands" "102"
         ⟨true, true, "", false, false⟩).2.filter isPiWrite = [] ∧
       (onMqttMessage (fun _ => some ⟨"power_on", 102, 0⟩) "commands" "102"
         ⟨true, true, "", false, false⟩).2.filter isPinWrite = []) ∧
     ((⟨true, true, "", false, false⟩ : DevState).piReady = true →
       (onMqttMessage (fun _ => some ⟨"power_on", 102, 0⟩) "commands" "102"
         ⟨true, true, "", false, false⟩).1 = ⟨true, true, "", false, false⟩ ∧
       Out.status "Pi is already powered on" ∈
         (onMqttMessage (fun _ => some ⟨"power_on", 102, 0⟩) "commands" "102"
           ⟨true, true, "", false, false⟩).2 ∧
       (onMqttMessage (fun _ => some ⟨"power_on", 102, 0⟩) "commands" "102"
         ⟨true, true, "", false, false⟩).2.filter isPiWrite = [Out.piWrite "102\n"] ∧
       (onMqttMessage (fun _ => some ⟨"power_on", 102, 0⟩) "commands" "102"
         ⟨true, true, "", false, false⟩).2.filter isPinWrite = [])) :=
  ⟨⟨rfl, by decide, by decide, rfl⟩,
    c5_already_powered (fun _ => some ⟨"power_on", 102, 0⟩) "commands" "\x7b\x7d"
      "power_on" 0 ⟨true, true, "", false, false⟩ rfl (by decide) (by decide) rfl⟩

end SatTrack

namespace SatTrack

/-- C2 counterexample: a structured message with code 104 dispatched while READY
leaves `piReady` and `piPowered` true and performs no settle wait — the shutdown
sequence claimed for every code-104 command does not run on the structured
path. -/
theorem c2_counterexample :
    (onMqttMessage (fun _ => some ⟨"shutdown", 104, 0⟩) "commands" "\x7b\x7d"
        ⟨true, true, "", false, false⟩).1.piReady = true ∧
    (onMqttMessage (fun _ => some ⟨"shutdown", 104, 0⟩) "commands" "\x7b\x7d"
        ⟨true, true, "", false, false⟩).1.piPowered = true ∧
    (onMqttMessage (fun _ => some ⟨"shutdown", 104, 0⟩) "commands" "\x7b\x7d"
        ⟨true, true, "", false, false⟩).2.filter isDelay = [] := by
  decide

/-- C2 amended: while READY, only the legacy message "104" runs the shutdown
sequence — it sends "104" to the device, clears `piReady`, waits the fixed 25
seconds, then drives the power pin HIGH and clears `piPowered`; a structured
message with code 104 is instead forwarded to the device as code-colon-duration
with no state change and no wait. -/
theorem c2_shutdown_paths (parse : String → Option JsonDoc) (t msg cmd : String)
    (dur : Int) (d : DevState) (hready : d.piReady = true)
    (hB1 : containsSubstring msg "\x7b" = true) (hB2 : containsSubstring msg "\x7d" = true)
    (hp : parse msg = some ⟨cmd, 104, dur⟩) :
    ((onMqttMessage parse t "104" d).1.piReady = false ∧
     (onMqttMessage parse t "104" d).1.piPowered = false ∧
     (onMqttMessage parse t "104" d).1.pin12High = true ∧
     Out.piWrite "104\n" ∈ (onMqttMessage parse t "104" d).2 ∧
     Out.delayMs 25000 ∈ (onMqttMessage parse t "104" d).2) ∧
    ((onMqttMessage parse t msg d).1 = d ∧
     Out.piWrite (toString (104 : Int) ++ ":" ++ toString dur ++ "\n") ∈
       (onMqttMessage parse t msg d).2 ∧
     (onMqttMessage parse t msg d).2.filter isDelay = []) := by
  have hL : containsSubstring "104" "\x7b" = false := by decide
  have hn : ardToInt "104" = 104 := by decide
  constructor
  · unfold onMqttMessage legacyDispatch legacyReadyDispatch shutdownpi sendToPi
    dsimp only
    simp [hL, hn, hready, publishStatus]
  · unfold onMqttMessage processJsonMessage sendToPi
    dsimp only
    simp [hB1, hB2, hp, hready, publishStatus, isDelay]

/-- Witness for C2 at the READY state, with the structured shutdown message
carrying code 104 and duration 0. -/
theorem c2_shutdown_paths_witness :
    ((⟨true, true, "", false, false⟩ : DevState).piReady = true ∧
      containsSubstring "\x7b\x7d" "\x7b" = true ∧
      containsSubstring "\x7b\x7d" "\x7d" = true ∧
      (fun (_ : String) => some (⟨"shutdown", 104, 0⟩ : JsonDoc)) "\x7b\x7d" =
        some ⟨"shutdown", 104, 0⟩) ∧
    (((onMqttMessage (fun _ => some ⟨"shutdown", 104, 0⟩) "commands" "104"
        ⟨true, true, "", false, false⟩).1.piReady = false ∧
      (onMqttMessage (fun _ => some ⟨"shutdown", 104, 0⟩) "commands" "104"
        ⟨true, true, "", false, false⟩).1.piPowered = false ∧
      (onMqttMessage (fun _ => some ⟨"shutdown", 104, 0⟩) "commands" "104"
        ⟨true, true, "", false, false⟩).1.pin12High = true ∧
      Out.piWrite "104\n" ∈
        (onMqttMessage (fun _ => some ⟨"shutdown", 104, 0⟩) "commands" "104"
          ⟨true, true, "", false, false⟩).2 ∧
      Out.delayMs 25000 ∈
        (onMqttMessage (fun _ => some ⟨"shutdown", 104, 0⟩) "commands" "104"
          ⟨true, true, "", false, false⟩).2) ∧
     ((onMqttMessage (fun _ => some ⟨"shutdown", 104, 0⟩) "commands" "\x7b\x7d"
        ⟨true, true, "", false, false⟩).1 = ⟨true, true, "", false, false⟩ ∧
      Out.piWrite (toString (104 : Int) ++ ":" ++ toString (0 : Int) ++ "\n") ∈
        (onMqttMessage (fun _ => some ⟨"shutdown", 104, 0⟩) "commands" "\x7b\x7d"
          ⟨true, true, "", false, false⟩).2 ∧
      (onMqttMessage (fun _ => some ⟨"shutdown", 104, 0⟩) "commands" "\x7b\x7d"
        ⟨true, true, "", false, false⟩).2.filter isDelay = [])) :=
  ⟨⟨rfl, by decide, by decide, rfl⟩,
    c2_shutdown_paths (fun _ => some ⟨"shutdown", 104, 0⟩) "commands" "\x7b\x7d"
      "shutdown" 0 ⟨true, true, "", false, false⟩ rfl (by decide) (by decide) rfl⟩

end SatTrack
